import Mathlib

/-!
Verification of the delivery/transport subsystem of the asbplayer subtitle
streamer extension (src/background.js) against its natural-language
specification.  Every definition below is a shallow embedding of a concrete
piece of the source; doc comments cite the function and line range embedded.
-/

/-- Connection status values of the global mutable cell `connectionStatus`
(src/background.js line 16): the strings `connected`, `disconnected`,
`connecting`. -/
inductive St where
  | connected
  | disconnected
  | connecting
deriving DecidableEq, Repr, BEq

/-! ## Settings and `updateSettings` (src/background.js lines 7-13, 73-90) -/

/-- The background worker settings object (src/background.js lines 7-13).
All five fields are always present on the stored object. -/
structure SettingsS where
  enabled : Bool
  transportType : String
  wsUrl : String
  httpUrl : String
  nativeHost : String
deriving DecidableEq, Repr

/-- The default settings literal (src/background.js lines 7-13). -/
def defaultSettings : SettingsS :=
  { enabled := true
    transportType := "websocket"
    wsUrl := "ws://localhost:8767"
    httpUrl := "http://localhost:8080/subtitle"
    nativeHost := "com.subtitle.streamer" }

/-- An incoming `message.settings` object handed to `updateSettings`
(src/background.js line 64).  A JavaScript object may omit any field; an
omitted field reads as `undefined`, modelled by `none`. -/
structure SettingsPatch where
  enabled : Option Bool
  transportType : Option String
  wsUrl : Option String
  httpUrl : Option String
  nativeHost : Option String
deriving DecidableEq, Repr

/-- The `needsReconnect` condition of `updateSettings` (src/background.js
lines 74-79): a strict-inequality (`!==`) comparison of each of the five
fields of the current settings against the incoming object, joined by `||`.
Reading a field absent from the incoming object yields `undefined`, which is
`!==` any present value. -/
def needsReconnect (s : SettingsS) (p : SettingsPatch) : Bool :=
  decide (some s.transportType ≠ p.transportType) ||
  decide (some s.wsUrl ≠ p.wsUrl) ||
  decide (some s.httpUrl ≠ p.httpUrl) ||
  decide (some s.nativeHost ≠ p.nativeHost) ||
  decide (some s.enabled ≠ p.enabled)

/-- The merge `settings = { ...settings, ...newSettings }` of `updateSettings`
(src/background.js line 81): a field present in the incoming object replaces
the stored one, an absent field keeps it. -/
def mergeSettings (s : SettingsS) (p : SettingsPatch) : SettingsS :=
  { enabled := p.enabled.getD s.enabled
    transportType := p.transportType.getD s.transportType
    wsUrl := p.wsUrl.getD s.wsUrl
    httpUrl := p.httpUrl.getD s.httpUrl
    nativeHost := p.nativeHost.getD s.nativeHost }

/-- The observable outcome of `updateSettings` (src/background.js lines
73-90): the merged settings, and whether the transport teardown/reconnect
branch (`disconnectTransport` followed by `connectTransport` when enabled)
runs — which happens exactly when `needsReconnect` is true. -/
def updateSettings (s : SettingsS) (p : SettingsPatch) : SettingsS × Bool :=
  (mergeSettings s p, needsReconnect s p)

/-- A patch carrying every field of the given settings, as the settings UI
sends on save (the full settings object). -/
def fullPatch (s : SettingsS) : SettingsPatch :=
  { enabled := some s.enabled
    transportType := some s.transportType
    wsUrl := some s.wsUrl
    httpUrl := some s.httpUrl
    nativeHost := some s.nativeHost }

/-- Modelled from the spec: the endpoint of the currently selected transport
kind — `wsUrl` for websocket, `httpUrl` for http, `nativeHost` for native.
Used only to compare the code against the spec notion of the effective
configuration; `updateSettings` itself never computes this. -/
def effectiveEndpoint (s : SettingsS) : String :=
  if s.transportType = "websocket" then s.wsUrl
  else if s.transportType = "http" then s.httpUrl
  else if s.transportType = "native" then s.nativeHost
  else ""

/-- Modelled from the spec: the effective configuration triple
(kind, selected endpoint, enabled) that the spec says governs reconnection. -/
def effectiveConfig (s : SettingsS) : String × String × Bool :=
  (s.transportType, effectiveEndpoint s, s.enabled)

/-! ## Reconnection policy (src/background.js lines 276-279) -/

/-- The reconnect delay computed by `WebSocketTransport.scheduleReconnect`
(src/background.js lines 276-279):
`Math.min(1000 * Math.pow(2, reconnectAttempts), maxReconnectDelay)` with
`maxReconnectDelay = 30000` (line 188). -/
def reconnectDelay (attempt : Nat) : Nat :=
  min (1000 * 2 ^ attempt) 30000

/-! ## `HttpTransport.send` (src/background.js lines 345-375) -/

/-- Outcome of one `fetch` attempt inside `HttpTransport.send`: the request
resolves with `response.ok`, resolves with a non-ok status (HTTP error), or
rejects (network error, caught by the `catch` block). -/
inductive FetchOutcome where
  | ok
  | httpError
  | netError
deriving DecidableEq, Repr

/-- Observable result of one `HttpTransport.send` call: number of loop
iterations (attempts) executed, the backoff waits performed (ms, in order),
the status values published via `updateBadge`, and the final value of
`connectionStatus`. -/
structure HttpSendResult where
  attempts : Nat
  waits : List Nat
  publishes : List St
  finalStatus : St
deriving DecidableEq, Repr

/-- The retry loop of `HttpTransport.send` (src/background.js lines 346-374),
fuel = remaining iterations of `for (let attempt = 0; attempt < maxRetries;
attempt++)`.  On `response.ok`: publish Connected only when the status is not
already Connected, then return.  On a non-ok response: log and continue (no
wait, no publish).  On a caught error: publish Disconnected when this was the
last attempt (`attempt === maxRetries - 1`), else wait `1000 * (attempt + 1)`
ms and continue. -/
def httpSendGo (oc : Nat → FetchOutcome) (maxRetries : Nat) :
    Nat → Nat → St → HttpSendResult
  | 0, attempt, st => ⟨attempt, [], [], st⟩
  | fuel + 1, attempt, st =>
    match oc attempt with
    | .ok =>
      if st = .connected then ⟨attempt + 1, [], [], st⟩
      else ⟨attempt + 1, [], [.connected], .connected⟩
    | .httpError => httpSendGo oc maxRetries fuel (attempt + 1) st
    | .netError =>
      if attempt = maxRetries - 1 then
        let r := httpSendGo oc maxRetries fuel (attempt + 1) .disconnected
        { r with publishes := .disconnected :: r.publishes }
      else
        let r := httpSendGo oc maxRetries fuel (attempt + 1) st
        { r with waits := 1000 * (attempt + 1) :: r.waits }

/-- `HttpTransport.send` (src/background.js lines 345-375) with
`maxRetries = 3` (line 313), run against a sequence of fetch outcomes and the
current `connectionStatus`. -/
def httpSend (oc : Nat → FetchOutcome) (st : St) : HttpSendResult :=
  httpSendGo oc 3 3 0 st

/-- The Scenario-B outcome sequence: the first two fetch attempts reject,
the third succeeds. -/
def failFailOk : Nat → FetchOutcome
  | 0 => .netError
  | 1 => .netError
  | _ => .ok

/-! ## `HttpTransport.connect` and URL validation
(src/background.js lines 316-333) -/

/-- Character class of URL scheme continuation characters (WHATWG URL:
ASCII alphanumeric, `+`, `-`, `.`). -/
def isSchemeChar (c : Char) : Bool :=
  c.isAlpha || c.isDigit || c = '+' || c = '-' || c = '.'

/-- Split a character list at the first `:`, returning the part before and
after, or `none` when no `:` occurs. -/
def splitAtColon : List Char → Option (List Char × List Char)
  | [] => none
  | c :: cs =>
    if c = ':' then some ([], cs)
    else
      match splitAtColon cs with
      | some (a, b) => some (c :: a, b)
      | none => none

/-- Schemes the WHATWG URL standard treats as special (requiring a host),
other than `file`. -/
def specialScheme (sch : String) : Bool :=
  sch = "http" || sch = "https" || sch = "ws" || sch = "wss" || sch = "ftp"

/-- Authority part of what follows the colon: after skipping leading slashes,
the characters up to the first delimiter. -/
def hostPart (rest : List Char) : List Char :=
  (rest.dropWhile (fun c => c = '/')).takeWhile
    (fun c => ¬ (c = '/' || c = '?' || c = '#' || c = ':' || c = '@'))

/-- Modelled from the platform: success of the WHATWG `new URL(input)`
constructor invoked by `HttpTransport.connect` (src/background.js line 319),
restricted to the fragment needed here.  The input must begin with a valid
scheme (ASCII alpha, then scheme characters) followed by `:`; a special
scheme additionally requires a nonempty host.  Any other scheme is accepted
with an opaque path — the constructor does not restrict to HTTP(S). -/
def urlParseOk (s : String) : Bool :=
  match splitAtColon s.data with
  | none => false
  | some (sch, rest) =>
    match sch with
    | [] => false
    | c :: cs =>
      c.isAlpha && cs.all isSchemeChar &&
        (if specialScheme (String.mk sch) then ¬ (hostPart rest).isEmpty
         else true)

/-- Modelled from the spec: a syntactically well-formed HTTP(S) URI — a URL
whose scheme is `http` or `https`.  This is the validity notion the spec
claims `HttpTransport.connect` enforces; used only for comparison. -/
def isHttpUri (s : String) : Bool :=
  urlParseOk s &&
    (match splitAtColon s.data with
     | some (sch, _) => String.mk sch = "http" || String.mk sch = "https"
     | none => false)

/-- Observable result of `HttpTransport.connect`: the statuses published via
`updateBadge` and the record types handed to `this.send`. -/
structure HttpConnectResult where
  publishes : List St
  sentTypes : List String
deriving DecidableEq, Repr

/-- `HttpTransport.connect` (src/background.js lines 316-333): `new URL(url)`
inside `try`; on success publish Connected and hand a synthesized
`connected` record to `this.send`; the `catch` on a parse failure publishes
Disconnected and does nothing else (no send, no retry, no escaping
exception). -/
def httpConnect (url : String) : HttpConnectResult :=
  if urlParseOk url then ⟨[.connected], ["connected"]⟩
  else ⟨[.disconnected], []⟩

/-! ## `NativeTransport` (src/background.js lines 380-444) -/

/-- Whether the underlying native-messaging channel behind a held port object
is still alive.  `postMessage` on a dead port throws. -/
inductive PortSt where
  | alive
  | dead
deriving DecidableEq, Repr

/-- Externally visible actions a `NativeTransport` operation can perform:
publish a status via `updateBadge`, attempt a `port.postMessage`, or arm a
timer (`setTimeout`/`setInterval`).  `NativeTransport` contains no timer
call anywhere; the constructor `setTimer` exists so absence is expressible. -/
inductive NAct where
  | publish (st : St)
  | post
  | setTimer
deriving DecidableEq, Repr

/-- `NativeTransport.send` (src/background.js lines 434-443): no-op when
`this.port` is null; otherwise one `postMessage` attempt, whose failure is
caught and publishes Disconnected.  No retry, no timer. -/
def nativeSend (p : Option PortSt) : List NAct :=
  match p with
  | none => []
  | some .alive => [.post]
  | some .dead => [.post, .publish .disconnected]

/-- The `onDisconnect` listener installed by `NativeTransport.connect`
(src/background.js lines 395-401): logs and publishes Disconnected.  The
port field is left untouched and nothing is scheduled. -/
def nativeOnDisconnect (p : Option PortSt) : Option PortSt × List NAct :=
  (p, [.publish .disconnected])

/-- `NativeTransport.connect` (src/background.js lines 386-417): publish
Connecting, open the channel; on success publish Connected and hand a
synthesized `connected` record to `this.send`; the `catch` publishes
Disconnected. -/
def nativeConnect (ok : Bool) : List NAct :=
  if ok then [.publish .connecting, .publish .connected, .post]
  else [.publish .connecting, .publish .disconnected]

/-- `NativeTransport.disconnect` (src/background.js lines 419-432): when a
port is held, send a synthesized `disconnected` record (through
`this.send`), disconnect and null the port; always publish Disconnected. -/
def nativeDisconnect (p : Option PortSt) : Option PortSt × List NAct :=
  match p with
  | some st => (none, nativeSend (some st) ++ [.publish .disconnected])
  | none => (none, [.publish .disconnected])

/-! ## WebSocket transport and connection manager
(src/background.js lines 92-132, 182-306)

Operational model of the background worker with `settings.transportType =
'websocket'` (the default).  The worker is single-threaded: each handler
below is a total function from worker state to worker state, executed to
completion.  Socket lifecycle events (`onopen`, `onerror`, `onclose`) and
timer expiries are delivered by the browser between handler runs; they are
modelled as explicit `fire` functions that an execution applies in an order
consistent with the platform (a socket whose connection is refused fires
`error` then `close` once; `close()` on a socket makes its close event fire
once, later; a timer armed by `setTimeout` fires once unless cleared). -/

/-- Association-list lookup with a default, keyed by `Nat` identifiers. -/
def lookupA (k : Nat) (d : α) : List (Nat × α) → α
  | [] => d
  | (k2, v) :: rest => if k = k2 then v else lookupA k d rest

/-- Association-list update (replace if present, append if absent). -/
def updAssoc (k : Nat) (v : α) : List (Nat × α) → List (Nat × α)
  | [] => [(k, v)]
  | (k2, v2) :: rest =>
    if k = k2 then (k, v) :: rest else (k2, v2) :: updAssoc k v rest

/-- Instance state of one `WebSocketTransport` object (constructor,
src/background.js lines 183-191): the held socket (`this.ws`, by id),
`reconnectAttempts`, `maxReconnectAttempts`, whether the heartbeat interval
is armed (`this.heartbeatInterval`), and the pending reconnect timer handle
(`this.reconnectTimeout`, by timer id). -/
structure WSInst where
  ws : Option Nat
  reconnectAttempts : Nat
  maxReconnectAttempts : Nat
  heartbeat : Bool
  reconnectTimeout : Option Nat
deriving DecidableEq, Repr

/-- A freshly constructed `WebSocketTransport` (src/background.js lines
183-191): no socket, zero attempts, cap 3, no heartbeat, no timer. -/
def newWSInst : WSInst :=
  { ws := none
    reconnectAttempts := 0
    maxReconnectAttempts := 3
    heartbeat := false
    reconnectTimeout := none }

/-- Lifecycle state of one browser `WebSocket` object. -/
inductive SockSt where
  | connecting
  | opened
  | closed
deriving DecidableEq, Repr

/-- One browser `WebSocket` object: the transport instance whose handlers are
attached to it, its lifecycle state, and whether its close event has already
fired (it fires at most once). -/
structure Sock where
  owner : Nat
  st : SockSt
  closeFired : Bool
deriving DecidableEq, Repr

/-- Whole-worker state: the `connectionStatus` cell, the log of every
`updateBadge` write (oldest first), the manager's `transport` slot (instance
id), the transport instances and socket objects created so far, the armed
reconnect timers (timer id, owner instance), the delays they were armed with,
the wire messages handed to open sockets (socket id, message type), the
number of calls of the active transport's `send` method, and a fresh-id
counter. -/
structure Sys where
  status : St
  log : List St
  transport : Option Nat
  insts : List (Nat × WSInst)
  socks : List (Nat × Sock)
  pendingTimers : List (Nat × Nat)
  timerDelays : List Nat
  sent : List (Nat × String)
  sendCalls : Nat
  nextId : Nat
deriving DecidableEq, Repr

/-- The worker state at service-worker start (src/background.js lines 7-16):
status `disconnected`, no transport, nothing created. -/
def initSys : Sys :=
  { status := .disconnected
    log := []
    transport := none
    insts := []
    socks := []
    pendingTimers := []
    timerDelays := []
    sent := []
    sendCalls := 0
    nextId := 0 }

/-- Read a transport instance by id (missing ids read as a fresh instance;
executions only use created ids). -/
def getInst (s : Sys) (i : Nat) : WSInst :=
  lookupA i newWSInst s.insts

/-- Write a transport instance by id. -/
def setInst (i : Nat) (v : WSInst) (s : Sys) : Sys :=
  { s with insts := updAssoc i v s.insts }

/-- Read a socket object by id. -/
def getSock (s : Sys) (k : Nat) : Sock :=
  lookupA k ⟨0, .closed, true⟩ s.socks

/-- Write a socket object by id. -/
def setSock (k : Nat) (v : Sock) (s : Sys) : Sys :=
  { s with socks := updAssoc k v s.socks }

/-- `updateBadge(status)` (src/background.js lines 161-178): writes the
`connectionStatus` cell; the log records every write. -/
def updateBadge (st : St) (s : Sys) : Sys :=
  { s with status := st, log := s.log ++ [st] }

/-- `WebSocketTransport.send` (src/background.js lines 257-261): entering the
method counts one call; the message goes on the wire only when `this.ws` is
non-null and open. -/
def wsSend (i : Nat) (ty : String) (s : Sys) : Sys :=
  match (getInst s i).ws with
  | some k =>
    if (getSock s k).st = .opened then
      { s with sendCalls := s.sendCalls + 1, sent := s.sent ++ [(k, ty)] }
    else { s with sendCalls := s.sendCalls + 1 }
  | none => { s with sendCalls := s.sendCalls + 1 }

/-- `WebSocketTransport.stopHeartbeat` (src/background.js lines 300-305):
clear the interval when armed. -/
def stopHeartbeat (i : Nat) (s : Sys) : Sys :=
  let inst := getInst s i
  if inst.heartbeat then setInst i { inst with heartbeat := false } s else s

/-- `WebSocketTransport.startHeartbeat` (src/background.js lines 290-298):
stop any previous interval, then arm one. -/
def startHeartbeat (i : Nat) (s : Sys) : Sys :=
  let s1 := stopHeartbeat i s
  setInst i { getInst s1 i with heartbeat := true } s1

/-- The `clearTimeout(this.reconnectTimeout)` prologue of
`WebSocketTransport.disconnect` (src/background.js lines 234-237): disarm the
held timer and null the handle. -/
def clearReconnectTimeout (i : Nat) (s : Sys) : Sys :=
  match (getInst s i).reconnectTimeout with
  | none => s
  | some tid =>
    setInst i { getInst s i with reconnectTimeout := none }
      { s with pendingTimers := s.pendingTimers.filter (fun p => p.1 ≠ tid) }

/-- `WebSocketTransport.connect` (src/background.js lines 193-231):
publish Connecting and construct a new `WebSocket` stored in `this.ws` (a
well-formed ws URL, so the constructor does not throw).  Its handlers are the
`fire` functions below. -/
def wsConnect (i : Nat) (s : Sys) : Sys :=
  let s1 := updateBadge .connecting s
  let k := s1.nextId
  let s2 := { s1 with
    nextId := k + 1
    socks := updAssoc k ⟨i, .connecting, false⟩ s1.socks }
  setInst i { getInst s2 i with ws := some k } s2

/-- `WebSocketTransport.scheduleReconnect` (src/background.js lines 263-288):
return at once when a timer is already pending; when
`reconnectAttempts >= maxReconnectAttempts` publish Disconnected and stop;
otherwise arm a timer for `reconnectDelay reconnectAttempts` ms and store its
handle. -/
def scheduleReconnect (i : Nat) (s : Sys) : Sys :=
  let inst := getInst s i
  match inst.reconnectTimeout with
  | some _ => s
  | none =>
    if inst.maxReconnectAttempts ≤ inst.reconnectAttempts then
      updateBadge .disconnected s
    else
      let tid := s.nextId
      setInst i { inst with reconnectTimeout := some tid }
        { s with
          nextId := tid + 1
          pendingTimers := s.pendingTimers ++ [(tid, i)]
          timerDelays := s.timerDelays ++ [reconnectDelay inst.reconnectAttempts] }

/-- `WebSocketTransport.disconnect` (src/background.js lines 233-255): clear
the reconnect timer, stop the heartbeat, and when a socket is held — send a
synthesized `disconnected` record if it is open, close it, null `this.ws` —
then publish Disconnected. -/
def wsDisconnect (i : Nat) (s : Sys) : Sys :=
  let s1 := clearReconnectTimeout i s
  let s2 := stopHeartbeat i s1
  let s3 :=
    match (getInst s2 i).ws with
    | some k =>
      let sA := if (getSock s2 k).st = .opened then wsSend i "disconnected" s2 else s2
      let sB := setSock k { getSock sA k with st := .closed } sA
      setInst i { getInst sB i with ws := none } sB
    | none => s2
  updateBadge .disconnected s3

/-- The `onopen` handler (src/background.js lines 198-212), fired by the
platform when a connecting socket opens: publish Connected, reset
`reconnectAttempts`, send a synthesized `connected` record, start the
heartbeat. -/
def fireOpen (i k : Nat) (s : Sys) : Sys :=
  if (getSock s k).st = .connecting then
    let s1 := setSock k { getSock s k with st := .opened } s
    let s2 := updateBadge .connected s1
    let s3 := setInst i { getInst s2 i with reconnectAttempts := 0 } s2
    startHeartbeat i (wsSend i "connected" s3)
  else s

/-- The `onerror` handler (src/background.js lines 221-224), fired by the
platform when a connection attempt fails: publish Disconnected. -/
def fireError (_i k : Nat) (s : Sys) : Sys :=
  if (getSock s k).st = .connecting then updateBadge .disconnected s else s

/-- The `onclose` handler (src/background.js lines 214-219), fired once by
the platform when the socket closes (including after a local `close()`; the
handler stays attached): publish Disconnected, stop the heartbeat, run
`scheduleReconnect` on the owning instance. -/
def fireClose (i k : Nat) (s : Sys) : Sys :=
  let sock := getSock s k
  if sock.closeFired then s
  else
    let s1 := setSock k { sock with st := .closed, closeFired := true } s
    scheduleReconnect i (stopHeartbeat i (updateBadge .disconnected s1))

/-- Expiry of an armed reconnect timer (the `setTimeout` callback,
src/background.js lines 283-287): null the handle, increment
`reconnectAttempts`, call `connect()` on the owning instance. -/
def fireTimer (tid : Nat) (s : Sys) : Sys :=
  match s.pendingTimers.find? (fun p => p.1 = tid) with
  | some p =>
    let s1 := { s with pendingTimers := s.pendingTimers.filter (fun q => q.1 ≠ tid) }
    let inst := getInst s1 p.2
    let s2 := setInst p.2
      { inst with reconnectTimeout := none
                  reconnectAttempts := inst.reconnectAttempts + 1 } s1
    wsConnect p.2 s2
  | none => s

/-- `disconnectTransport` (src/background.js lines 117-123): when a transport
is held, call its `disconnect` and null the slot; always publish
Disconnected. -/
def disconnectTransport (s : Sys) : Sys :=
  let s1 :=
    match s.transport with
    | some i => { wsDisconnect i s with transport := none }
    | none => s
  updateBadge .disconnected s1

/-- `connectTransport` (src/background.js lines 93-114) in the websocket
branch: tear down any current transport, construct a fresh
`WebSocketTransport`, store it in the slot, call its `connect`. -/
def connectTransport (s : Sys) : Sys :=
  let s1 := disconnectTransport s
  let i := s1.nextId
  let s2 := { s1 with
    nextId := i + 1
    insts := updAssoc i newWSInst s1.insts
    transport := some i }
  wsConnect i s2

/-- `handleSubtitle` (src/background.js lines 126-132): return at once when
the extension is disabled or no transport is held; otherwise invoke the
active transport's `send` with the subtitle message. -/
def handleSubtitle (enabled : Bool) (s : Sys) : Sys :=
  match s.transport with
  | none => s
  | some i => if enabled then wsSend i "subtitle" s else s

/-! ### The refused-endpoint execution (Scenario A)

The endpoint refuses every connection attempt: every socket the transport
creates fires `error` then `close` while connecting, and each armed reconnect
timer eventually expires. -/

/-- Deliver the failure of the active instance's current connection attempt:
its socket fires `error` then `close`. -/
def refusedFail (s : Sys) : Sys :=
  match s.transport with
  | some i =>
    match (getInst s i).ws with
    | some k => fireClose i k (fireError i k s)
    | none => s
  | none => s

/-- One environment round while the endpoint keeps refusing: the pending
reconnect timer (if any) expires, and the connection attempt it launches
fails. -/
def refusedStep (s : Sys) : Sys :=
  match s.pendingTimers with
  | [] => s
  | p :: _ => refusedFail (fireTimer p.1 s)

/-- The refused-endpoint execution after `n` environment rounds: the worker
connects the websocket transport, the attempt fails, and each subsequent
round fires the pending timer and fails the attempt it launches. -/
def runRefused : Nat → Sys
  | 0 => refusedFail (connectTransport initSys)
  | n + 1 => refusedStep (runRefused n)

/-- Number of `connecting` entries in a status log. -/
def countConnecting (l : List St) : Nat :=
  (l.filter (fun x => x = .connecting)).length

/-- Well-formedness of the timer bookkeeping: every armed reconnect timer is
the one whose handle its owner instance holds.  Every reachable worker state
satisfies this (a timer is armed only with its handle stored, and cleared
together with it). -/
def timersOk (s : Sys) : Prop :=
  ∀ p ∈ s.pendingTimers, (getInst s p.2).reconnectTimeout = some p.1

/-- Projection of the worker state that drops the write log: the data a
second observer could still distinguish. -/
def sysCore (s : Sys) :
    St × Option Nat × List (Nat × WSInst) × List (Nat × Sock) ×
      List (Nat × Nat) × List Nat × List (Nat × String) × Nat × Nat :=
  (s.status, s.transport, s.insts, s.socks, s.pendingTimers, s.timerDelays,
    s.sent, s.sendCalls, s.nextId)

/-! ### The stale-close-handler execution

A connected websocket transport is torn down (the user disables the
extension via `updateSettings`, whose `needsReconnect` is true and whose
merged `enabled` is false, so `disconnectTransport` runs and nothing is
reconnected).  `disconnect` calls `this.ws.close()` but leaves the handlers
attached, so the platform later fires the socket's close event; its
`onclose` runs `scheduleReconnect` on the discarded instance, and the timer
it arms calls `connect()` on that instance. -/

/-- The worker state after: `connectTransport` from start, the socket opens,
`disconnectTransport` runs (teardown completed), and the closed socket's
close event fires.  Ids: instance 0, socket 1, timer 2. -/
def staleClose : Sys :=
  fireClose 0 1 (disconnectTransport (fireOpen 0 1 (connectTransport initSys)))

/-- The state after the reconnect timer armed by the stale close handler
expires. -/
def staleTimerFire : Sys :=
  fireTimer 2 staleClose

/-- A concrete worker state with one websocket transport instance holding an
open socket, an armed heartbeat, and an armed reconnect timer — the state of
an instance mid-backoff.  Used to exercise `wsDisconnect` on every resource
it must release. -/
def exDisc : Sys :=
  { status := .connected
    log := []
    transport := some 0
    insts := [(0, { ws := some 1
                    reconnectAttempts := 1
                    maxReconnectAttempts := 3
                    heartbeat := true
                    reconnectTimeout := some 2 })]
    socks := [(1, ⟨0, .opened, false⟩)]
    pendingTimers := [(2, 0)]
    timerDelays := [2000]
    sent := []
    sendCalls := 0
    nextId := 3 }

/-! ## Supporting lemmas about the worker-state operations -/

theorem lookupA_updAssoc_self (k : Nat) (d v : α) (l : List (Nat × α)) :
    lookupA k d (updAssoc k v l) = v := by
  induction l with
  | nil => simp [updAssoc, lookupA]
  | cons h t ih =>
    obtain ⟨k2, v2⟩ := h
    by_cases hk : k = k2 <;> simp [updAssoc, lookupA, hk, ih]

theorem getInst_setInst (i : Nat) (v : WSInst) (s : Sys) :
    getInst (setInst i v s) i = v := by
  simp [getInst, setInst, lookupA_updAssoc_self]

theorem getInst_updateBadge (st : St) (s : Sys) (j : Nat) :
    getInst (updateBadge st s) j = getInst s j := rfl

theorem getInst_setSock (k : Nat) (v : Sock) (s : Sys) (j : Nat) :
    getInst (setSock k v s) j = getInst s j := rfl

theorem getSock_of_socks_eq {s1 s2 : Sys} (h : s1.socks = s2.socks) (k : Nat) :
    getSock s1 k = getSock s2 k := by
  simp [getSock, h]

theorem wsSend_insts (i : Nat) (ty : String) (s : Sys) :
    (wsSend i ty s).insts = s.insts := by
  unfold wsSend
  split <;> first | rfl | (split <;> rfl)

theorem wsSend_socks (i : Nat) (ty : String) (s : Sys) :
    (wsSend i ty s).socks = s.socks := by
  unfold wsSend
  split <;> first | rfl | (split <;> rfl)

theorem wsSend_pendingTimers (i : Nat) (ty : String) (s : Sys) :
    (wsSend i ty s).pendingTimers = s.pendingTimers := by
  unfold wsSend
  split <;> first | rfl | (split <;> rfl)

theorem wsSend_sendCalls (i : Nat) (ty : String) (s : Sys) :
    (wsSend i ty s).sendCalls = s.sendCalls + 1 := by
  unfold wsSend
  split <;> first | rfl | (split <;> rfl)

theorem wsSend_sent_opened {i k : Nat} {s : Sys} (ty : String)
    (h1 : (getInst s i).ws = some k) (h2 : (getSock s k).st = .opened) :
    (wsSend i ty s).sent = s.sent ++ [(k, ty)] := by
  unfold wsSend
  rw [h1]
  simp [h2]

theorem getInst_stopHeartbeat (i : Nat) (s : Sys) :
    getInst (stopHeartbeat i s) i = { getInst s i with heartbeat := false } := by
  unfold stopHeartbeat
  dsimp only
  split
  · exact getInst_setInst ..
  · next h =>
    rcases hx : getInst s i with ⟨ws, ra, mra, hb, rt⟩
    rw [hx] at h
    simp only [Bool.not_eq_true] at h
    rw [h]

theorem stopHeartbeat_socks (i : Nat) (s : Sys) :
    (stopHeartbeat i s).socks = s.socks := by
  unfold stopHeartbeat
  dsimp only
  split <;> rfl

theorem stopHeartbeat_sent (i : Nat) (s : Sys) :
    (stopHeartbeat i s).sent = s.sent := by
  unfold stopHeartbeat
  dsimp only
  split <;> rfl

theorem stopHeartbeat_status (i : Nat) (s : Sys) :
    (stopHeartbeat i s).status = s.status := by
  unfold stopHeartbeat
  dsimp only
  split <;> rfl

theorem stopHeartbeat_pendingTimers (i : Nat) (s : Sys) :
    (stopHeartbeat i s).pendingTimers = s.pendingTimers := by
  unfold stopHeartbeat
  dsimp only
  split <;> rfl

theorem stopHeartbeat_sendCalls (i : Nat) (s : Sys) :
    (stopHeartbeat i s).sendCalls = s.sendCalls := by
  unfold stopHeartbeat
  dsimp only
  split <;> rfl

theorem getInst_clearReconnectTimeout (i : Nat) (s : Sys) :
    getInst (clearReconnectTimeout i s) i =
      { getInst s i with reconnectTimeout := none } := by
  unfold clearReconnectTimeout
  split
  · next h =>
    rcases hx : getInst s i with ⟨ws, ra, mra, hb, rt⟩
    rw [hx] at h
    cases h
    rfl
  · exact getInst_setInst ..

theorem clearReconnectTimeout_socks (i : Nat) (s : Sys) :
    (clearReconnectTimeout i s).socks = s.socks := by
  unfold clearReconnectTimeout
  split <;> rfl

theorem clearReconnectTimeout_sent (i : Nat) (s : Sys) :
    (clearReconnectTimeout i s).sent = s.sent := by
  unfold clearReconnectTimeout
  split <;> rfl

theorem clearReconnectTimeout_status (i : Nat) (s : Sys) :
    (clearReconnectTimeout i s).status = s.status := by
  unfold clearReconnectTimeout
  split <;> rfl

theorem clearReconnectTimeout_sendCalls (i : Nat) (s : Sys) :
    (clearReconnectTimeout i s).sendCalls = s.sendCalls := by
  unfold clearReconnectTimeout
  split <;> rfl

theorem clearReconnectTimeout_pendingTimers_none {i : Nat} {s : Sys}
    (h : (getInst s i).reconnectTimeout = none) :
    (clearReconnectTimeout i s).pendingTimers = s.pendingTimers := by
  unfold clearReconnectTimeout
  rw [h]

theorem clearReconnectTimeout_pendingTimers_some {i tid : Nat} {s : Sys}
    (h : (getInst s i).reconnectTimeout = some tid) :
    (clearReconnectTimeout i s).pendingTimers =
      s.pendingTimers.filter (fun p => p.1 ≠ tid) := by
  unfold clearReconnectTimeout
  rw [h]
  rfl

theorem getInst_of_insts_eq {s1 s2 : Sys} (h : s1.insts = s2.insts) (j : Nat) :
    getInst s1 j = getInst s2 j := by
  simp [getInst, h]

theorem getInst_wsSend (i : Nat) (ty : String) (s : Sys) (j : Nat) :
    getInst (wsSend i ty s) j = getInst s j :=
  getInst_of_insts_eq (wsSend_insts i ty s) j

theorem clearReconnectTimeout_inert {i : Nat} {s : Sys}
    (h : (getInst s i).reconnectTimeout = none) :
    clearReconnectTimeout i s = s := by
  unfold clearReconnectTimeout
  rw [h]

theorem stopHeartbeat_inert {i : Nat} {s : Sys}
    (h : (getInst s i).heartbeat = false) :
    stopHeartbeat i s = s := by
  unfold stopHeartbeat
  dsimp only
  rw [h]
  rfl

/-- On an instance with no timer, no heartbeat and no socket, `disconnect`
reduces to the final `updateBadge('disconnected')` alone. -/
theorem wsDisconnect_inert {i : Nat} {s : Sys}
    (h1 : (getInst s i).reconnectTimeout = none)
    (h2 : (getInst s i).heartbeat = false)
    (h3 : (getInst s i).ws = none) :
    wsDisconnect i s = updateBadge .disconnected s := by
  unfold wsDisconnect
  dsimp only
  rw [clearReconnectTimeout_inert h1, stopHeartbeat_inert h2, h3]

theorem wsDisconnect_eq_none {i : Nat} {s : Sys} (hws : (getInst s i).ws = none) :
    wsDisconnect i s =
      updateBadge .disconnected (stopHeartbeat i (clearReconnectTimeout i s)) := by
  unfold wsDisconnect
  dsimp only
  rw [getInst_stopHeartbeat, getInst_clearReconnectTimeout]
  dsimp only
  rw [hws]

/-- Effect of one `WebSocketTransport.disconnect` call on an arbitrary
well-formed worker state: the timer handle, heartbeat and socket of the
instance are cleared, the status ends Disconnected, no reconnect timer of the
instance stays armed, and a synthesized `disconnected` record is sent exactly
when the socket was open. -/
theorem wsDisconnect_run_spec (s : Sys) (i : Nat) (hw : timersOk s) :
    (getInst (wsDisconnect i s) i).reconnectTimeout = none ∧
    (getInst (wsDisconnect i s) i).heartbeat = false ∧
    (getInst (wsDisconnect i s) i).ws = none ∧
    (wsDisconnect i s).status = .disconnected ∧
    (∀ p ∈ (wsDisconnect i s).pendingTimers, p.2 ≠ i) ∧
    ((wsDisconnect i s).sent = s.sent ++
      (match (getInst s i).ws with
       | some k => if (getSock s k).st = .opened then [(k, "disconnected")] else []
       | none => [])) := by
  have hI2 : getInst (stopHeartbeat i (clearReconnectTimeout i s)) i =
      { getInst s i with heartbeat := false, reconnectTimeout := none } := by
    rw [getInst_stopHeartbeat, getInst_clearReconnectTimeout]
  have hsocks2 : (stopHeartbeat i (clearReconnectTimeout i s)).socks = s.socks := by
    rw [stopHeartbeat_socks, clearReconnectTimeout_socks]
  have hsent2 : (stopHeartbeat i (clearReconnectTimeout i s)).sent = s.sent := by
    rw [stopHeartbeat_sent, clearReconnectTimeout_sent]
  have hpend : ∀ p ∈ (clearReconnectTimeout i s).pendingTimers, p.2 ≠ i := by
    cases hrt : (getInst s i).reconnectTimeout with
    | none =>
      rw [clearReconnectTimeout_pendingTimers_none hrt]
      intro p hp hpi
      have hx := hw p hp
      rw [hpi, hrt] at hx
      cases hx
    | some tid =>
      rw [clearReconnectTimeout_pendingTimers_some hrt]
      intro p hp hpi
      rw [List.mem_filter] at hp
      have h1 := hw p hp.1
      rw [hpi, hrt] at h1
      have h2 := hp.2
      simp only [decide_eq_true_eq] at h2
      exact h2 (Option.some.inj h1).symm
  cases hws : (getInst s i).ws with
  | none =>
    rw [wsDisconnect_eq_none hws]
    refine ⟨?_, ?_, ?_, rfl, ?_, ?_⟩
    · simp [getInst_updateBadge, hI2]
    · simp [getInst_updateBadge, hI2]
    · simp [getInst_updateBadge, hI2, hws]
    · simp only [updateBadge, stopHeartbeat_pendingTimers]
      exact hpend
    · simp only [updateBadge, hsent2]
      simp
  | some k =>
    by_cases hst : (getSock s k).st = .opened
    · refine ⟨?_, ?_, ?_, ?_, ?_, ?_⟩ <;>
        (unfold wsDisconnect
         dsimp only
         rw [hI2]
         dsimp only
         rw [hws]
         dsimp only
         rw [getSock_of_socks_eq hsocks2 k, hst]
         simp only [reduceIte])
      · simp [getInst_updateBadge, getInst_setInst, getInst_setSock, getInst_wsSend, hI2]
      · simp [getInst_updateBadge, getInst_setInst, getInst_setSock, getInst_wsSend, hI2]
      · simp [getInst_updateBadge, getInst_setInst]
      · rfl
      · simp only [updateBadge, setInst, setSock, wsSend_pendingTimers,
          stopHeartbeat_pendingTimers]
        exact hpend
      · simp only [updateBadge, setInst, setSock]
        rw [wsSend_sent_opened "disconnected"
          (by rw [hI2]; exact hws)
          (by rw [getSock_of_socks_eq hsocks2 k]; exact hst)]
        rw [hsent2]
    · refine ⟨?_, ?_, ?_, ?_, ?_, ?_⟩ <;>
        (unfold wsDisconnect
         dsimp only
         rw [hI2]
         dsimp only
         rw [hws]
         dsimp only
         rw [getSock_of_socks_eq hsocks2 k]
         simp only [hst, reduceIte])
      · simp [getInst_updateBadge, getInst_setInst, getInst_setSock, hI2]
      · simp [getInst_updateBadge, getInst_setInst, getInst_setSock, hI2]
      · simp [getInst_updateBadge, getInst_setInst]
      · rfl
      · simp only [updateBadge, setInst, setSock, stopHeartbeat_pendingTimers]
        exact hpend
      · simp only [updateBadge, setInst, setSock]
        rw [hsent2]
        simp [hst]

theorem refusedStep_eq_of_no_timer {s : Sys} (h : s.pendingTimers = []) :
    refusedStep s = s := by
  unfold refusedStep
  rw [h]

/-- Once the third reconnect timer has fired and its attempt failed,
`scheduleReconnect` arms nothing further, so the refused-endpoint execution
is stationary from round 3 on. -/
theorem runRefused_sat (m : Nat) : runRefused (m + 3) = runRefused 3 := by
  induction m with
  | zero => rfl
  | succ k ih =>
    have h : runRefused (k + 1 + 3) = refusedStep (runRefused (k + 3)) := rfl
    rw [h, ih]
    exact refusedStep_eq_of_no_timer (by decide)

/-! ## Claims -/

/-- Claim C1, counterexample: against an endpoint that refuses every attempt,
the published status sequence contains four `connecting` transitions — the
initial `connect()` plus the three scheduled retries — not the three the
claim states. -/
theorem refused_run_fourth_connecting_cex :
    countConnecting (runRefused 3).log = 4 := by decide

/-- Claim C1, amended: against an endpoint that refuses every attempt, the
websocket transport publishes exactly four Connecting transitions (the
initial connect plus `maxReconnectAttempts = 3` scheduled retries) and never
a fifth; at most one reconnect timer is pending at any time (here: at most
one armed timer exists at all); after the fourth failed cycle the execution
is stationary with no timer pending, and the delays of the three timers that
were armed are 1000, 2000, 4000 ms. -/
theorem refused_run_bounded (n : Nat) :
    countConnecting (runRefused n).log ≤ 4 ∧
    (runRefused n).pendingTimers.length ≤ 1 ∧
    (3 ≤ n → runRefused n = runRefused 3 ∧
      countConnecting (runRefused n).log = 4 ∧
      (runRefused n).pendingTimers = [] ∧
      (runRefused n).timerDelays = [1000, 2000, 4000]) := by
  by_cases h : 3 ≤ n
  · obtain ⟨m, rfl⟩ : ∃ m, n = m + 3 := ⟨n - 3, by omega⟩
    rw [runRefused_sat]
    exact ⟨by decide, by decide, fun _ => ⟨rfl, by decide, by decide, by decide⟩⟩
  · interval_cases n <;>
      exact ⟨by decide, by decide, fun hc => absurd hc (by decide)⟩

/-- Claim C1, witness: the amended theorem evaluated at round 5 of the
refused-endpoint execution. -/
theorem refused_run_bounded_witness :
    runRefused 5 = runRefused 3 ∧
    countConnecting (runRefused 5).log = 4 ∧
    (runRefused 5).pendingTimers = [] ∧
    (runRefused 5).timerDelays = [1000, 2000, 4000] :=
  (refused_run_bounded 5).2.2 (by decide)

/-- Claim C2, counterexample: in the reachable state after the websocket
transport has exhausted its reconnect attempts, Status is Disconnected and a
transport is still held, so `handleSubtitle` does invoke the transport's
`send` method (a spy would record one call). -/
theorem submit_while_disconnected_cex :
    (runRefused 3).status = .disconnected ∧
    (runRefused 3).transport = some 0 ∧
    (handleSubtitle true (runRefused 3)).sendCalls = (runRefused 3).sendCalls + 1 := by
  decide

/-- Claim C2, amended: `handleSubtitle` forwards the event to the active
transport's `send` exactly when a transport is held and `enabled` is true —
regardless of the current Status — and otherwise discards the event with no
state change. -/
theorem handleSubtitle_guard (e : Bool) (s : Sys) :
    (e = false → handleSubtitle e s = s) ∧
    (s.transport = none → handleSubtitle e s = s) ∧
    (∀ i, s.transport = some i → e = true →
      (handleSubtitle e s).sendCalls = s.sendCalls + 1) := by
  refine ⟨?_, ?_, ?_⟩
  · intro he
    subst he
    unfold handleSubtitle
    cases h : s.transport <;> simp
  · intro h
    unfold handleSubtitle
    rw [h]
  · intro i h he
    subst he
    unfold handleSubtitle
    rw [h]
    simp [wsSend_sendCalls]

/-- Claim C2, witness: the amended theorem applied at the initial state,
where no transport is held. -/
theorem handleSubtitle_guard_witness : handleSubtitle true initSys = initSys :=
  (handleSubtitle_guard true initSys).2.1 rfl

/-- Claim C3, counterexample: with the websocket transport selected, a
settings write that changes only `httpUrl` leaves the effective configuration
(kind, selected endpoint, enabled) unchanged, yet `updateSettings` still
tears down and reconnects the active transport. -/
theorem updateSettings_unrelated_endpoint_cex :
    (updateSettings defaultSettings
      { enabled := some true
        transportType := some "websocket"
        wsUrl := some "ws://localhost:8767"
        httpUrl := some "http://localhost:9999/subtitle"
        nativeHost := some "com.subtitle.streamer" }).2 = true ∧
    effectiveConfig (mergeSettings defaultSettings
      { enabled := some true
        transportType := some "websocket"
        wsUrl := some "ws://localhost:8767"
        httpUrl := some "http://localhost:9999/subtitle"
        nativeHost := some "com.subtitle.streamer" }) =
      effectiveConfig defaultSettings := by
  decide

/-- Claim C3, amended: `updateSettings` tears down and reconnects the active
transport iff at least one of the five stored fields (transportType, wsUrl,
httpUrl, nativeHost, enabled) differs from the incoming object's value — the
comparison is not restricted to the selected kind's endpoint; in particular,
a call whose incoming object carries the full current configuration
unchanged performs no teardown, preserving the transport instance. -/
theorem updateSettings_reconnect_iff (s : SettingsS) (p : SettingsPatch) :
    ((updateSettings s p).2 = false ↔
      (some s.transportType = p.transportType ∧ some s.wsUrl = p.wsUrl ∧
       some s.httpUrl = p.httpUrl ∧ some s.nativeHost = p.nativeHost ∧
       some s.enabled = p.enabled)) ∧
    (updateSettings s (fullPatch s)).2 = false ∧
    mergeSettings s (fullPatch s) = s := by
  have key : ∀ q : SettingsPatch, (needsReconnect s q = false ↔
      (some s.transportType = q.transportType ∧ some s.wsUrl = q.wsUrl ∧
       some s.httpUrl = q.httpUrl ∧ some s.nativeHost = q.nativeHost ∧
       some s.enabled = q.enabled)) := by
    intro q
    simp [needsReconnect, and_assoc]
  exact ⟨key p, (key (fullPatch s)).mpr ⟨rfl, rfl, rfl, rfl, rfl⟩, rfl⟩

/-- Claim C3, witness: the amended theorem applied at the default settings
and the full identical patch. -/
theorem updateSettings_reconnect_iff_witness :
    (updateSettings defaultSettings (fullPatch defaultSettings)).2 = false ∧
    mergeSettings defaultSettings (fullPatch defaultSettings) = defaultSettings :=
  ⟨(updateSettings_reconnect_iff defaultSettings
      (fullPatch defaultSettings)).2.1,
   (updateSettings_reconnect_iff defaultSettings
      (fullPatch defaultSettings)).2.2⟩

/-- Claim C4, counterexample: when every attempt resolves with a non-ok HTTP
response, `HttpTransport.send` makes its three attempts but publishes nothing
— in particular no Disconnected after the final failed attempt — and waits
no backoff between the attempts. -/
theorem httpSend_final_failure_silent_cex :
    httpSend (fun _ => .httpError) .connected =
      { attempts := 3, waits := [], publishes := [], finalStatus := .connected } := by
  decide

/-- Claim C4, amended: `HttpTransport.send` makes at most `maxRetries = 3`
attempts; a backoff of `1000 × (attemptIndex + 1)` ms occurs only after a
non-final attempt that fails by a thrown (network) error — not after an
error response; Disconnected is published iff the first two attempts do not
succeed and the third fails with a thrown error; in the
fails-fails-succeeds scenario exactly 3 attempts are made, the waits are
1000 and 2000 ms, and Status ends Connected. -/
theorem httpSend_retry_spec :
    (∀ (oc : Nat → FetchOutcome) (st : St), (httpSend oc st).attempts ≤ 3) ∧
    httpSend failFailOk .disconnected =
      { attempts := 3, waits := [1000, 2000], publishes := [.connected],
        finalStatus := .connected } ∧
    (∀ (oc : Nat → FetchOutcome) (st : St),
      St.disconnected ∈ (httpSend oc st).publishes ↔
        (oc 0 ≠ .ok ∧ oc 1 ≠ .ok ∧ oc 2 = .netError)) := by
  refine ⟨?_, by decide, ?_⟩ <;>
    (intro oc st
     cases h0 : oc 0 <;> cases h1 : oc 1 <;> cases h2 : oc 2 <;> cases st <;>
       simp [httpSend, httpSendGo, h0, h1, h2])

/-- Claim C4, witness: the amended theorem's attempt bound evaluated at the
all-ok outcome sequence. -/
theorem httpSend_retry_spec_witness :
    (httpSend (fun _ => FetchOutcome.ok) .connected).attempts ≤ 3 :=
  httpSend_retry_spec.1 (fun _ => FetchOutcome.ok) .connected

/-- Claim C5: the reconnection policy is
`delay(attempt) = min(1000 × 2^attempt, 30000)` ms; it is monotonically
non-decreasing in the attempt count, never exceeds 30000, and takes the
values 1000, 2000, 4000 at attempts 0, 1, 2. -/
theorem reconnectDelay_spec :
    (∀ m n, m ≤ n → reconnectDelay m ≤ reconnectDelay n) ∧
    (∀ n, reconnectDelay n ≤ 30000) ∧
    reconnectDelay 0 = 1000 ∧ reconnectDelay 1 = 2000 ∧ reconnectDelay 2 = 4000 := by
  refine ⟨?_, ?_, by decide, by decide, by decide⟩
  · intro m n h
    exact min_le_min
      (mul_le_mul_left' (Nat.pow_le_pow_right (by norm_num) h) 1000) le_rfl
  · intro n
    exact min_le_right _ _

/-- Claim C5, witness: monotonicity evaluated at attempts 2 ≤ 6. -/
theorem reconnectDelay_spec_witness : reconnectDelay 2 ≤ reconnectDelay 6 :=
  reconnectDelay_spec.1 2 6 (by decide)

/-- Claim C6, code-bug exhibit: a connected websocket transport is torn down
by `updateSettings` disabling the extension (`needsReconnect` is true and the
merged `enabled` is false, so `disconnectTransport` runs and completes:
transport slot empty, Status Disconnected).  The closed socket's still-
attached `onclose` handler then fires and `scheduleReconnect` arms a timer on
the discarded instance; when it expires, `connect()` runs on that instance —
Status reads Connecting and a fresh socket owned by the replaced instance is
connecting while no transport is held, violating the claimed invariant. -/
theorem stale_timer_revives_replaced_instance :
    (updateSettings defaultSettings
      { fullPatch defaultSettings with enabled := some false }).2 = true ∧
    (mergeSettings defaultSettings
      { fullPatch defaultSettings with enabled := some false }).enabled = false ∧
    staleClose.transport = none ∧
    staleClose.status = .disconnected ∧
    staleClose.pendingTimers = [(2, 0)] ∧
    staleTimerFire.transport = none ∧
    staleTimerFire.status = .connecting ∧
    (getSock staleTimerFire 3).st = .connecting ∧
    (getSock staleTimerFire 3).owner = 0 := by
  decide

/-- Claim C7: `WebSocketTransport.disconnect` cancels the pending reconnect
timer and the heartbeat, sends a synthesized `disconnected` record exactly
when the socket is currently open, closes and releases the socket, publishes
Disconnected, and leaves no reconnect timer of the instance armed; a second
call on the already-closed instance performs no additional effect (the state
minus the write log is unchanged) and leaves Status Disconnected.  The
hypothesis is the timer-bookkeeping invariant every reachable state
satisfies. -/
theorem wsDisconnect_idempotent_spec (s : Sys) (i : Nat) (hw : timersOk s) :
    (getInst (wsDisconnect i s) i).reconnectTimeout = none ∧
    (getInst (wsDisconnect i s) i).heartbeat = false ∧
    (getInst (wsDisconnect i s) i).ws = none ∧
    (wsDisconnect i s).status = .disconnected ∧
    (∀ p ∈ (wsDisconnect i s).pendingTimers, p.2 ≠ i) ∧
    ((wsDisconnect i s).sent = s.sent ++
      (match (getInst s i).ws with
       | some k => if (getSock s k).st = .opened then [(k, "disconnected")] else []
       | none => [])) ∧
    sysCore (wsDisconnect i (wsDisconnect i s)) = sysCore (wsDisconnect i s) ∧
    (wsDisconnect i (wsDisconnect i s)).status = .disconnected := by
  obtain ⟨F1, F2, F3, F4, F5, F6⟩ := wsDisconnect_run_spec s i hw
  refine ⟨F1, F2, F3, F4, F5, F6, ?_, ?_⟩
  · rw [wsDisconnect_inert F1 F2 F3]
    simp [sysCore, updateBadge, F4]
  · rw [wsDisconnect_inert F1 F2 F3]
    rfl

/-- Claim C7, witness: the theorem applied to a concrete instance holding an
open socket, an armed heartbeat and an armed reconnect timer. -/
theorem wsDisconnect_idempotent_spec_witness :
    (getInst (wsDisconnect 0 exDisc) 0).reconnectTimeout = none ∧
    (getInst (wsDisconnect 0 exDisc) 0).heartbeat = false ∧
    (getInst (wsDisconnect 0 exDisc) 0).ws = none ∧
    (wsDisconnect 0 exDisc).status = .disconnected ∧
    (∀ p ∈ (wsDisconnect 0 exDisc).pendingTimers, p.2 ≠ 0) ∧
    ((wsDisconnect 0 exDisc).sent = exDisc.sent ++
      (match (getInst exDisc 0).ws with
       | some k => if (getSock exDisc k).st = .opened then [(k, "disconnected")] else []
       | none => [])) ∧
    sysCore (wsDisconnect 0 (wsDisconnect 0 exDisc)) = sysCore (wsDisconnect 0 exDisc) ∧
    (wsDisconnect 0 (wsDisconnect 0 exDisc)).status = .disconnected :=
  wsDisconnect_idempotent_spec exDisc 0 (by unfold timersOk; decide)

/-- Claim C8, counterexample: `ws://localhost:8767` is not an HTTP(S) URI,
yet `HttpTransport.connect` publishes Connected and sends the synthesized
`connected` record, because `new URL` accepts any scheme. -/
theorem httpConnect_non_http_scheme_cex :
    httpConnect "ws://localhost:8767" =
      { publishes := [.connected], sentTypes := ["connected"] } ∧
    isHttpUri "ws://localhost:8767" = false := by
  decide

/-- Claim C8, amended: `HttpTransport.connect` publishes Connected and hands
a synthesized `connected` record to `send` iff the endpoint parses as a
well-formed absolute URL under the platform URL constructor — any scheme, not
only HTTP(S); for every endpoint that fails to parse it publishes
Disconnected, performs no send and no retry, and no exception escapes. -/
theorem httpConnect_validation_spec (url : String) :
    ((httpConnect url).publishes = [.connected] ↔ urlParseOk url = true) ∧
    ((httpConnect url).sentTypes = ["connected"] ↔ urlParseOk url = true) ∧
    (urlParseOk url = false →
      httpConnect url = { publishes := [.disconnected], sentTypes := [] }) := by
  cases h : urlParseOk url <;> simp [httpConnect, h]

/-- Claim C8, witness: the amended theorem's malformed-endpoint clause
evaluated at an endpoint with no scheme. -/
theorem httpConnect_validation_spec_witness :
    urlParseOk "not a url" = false ∧
    httpConnect "not a url" = { publishes := [.disconnected], sentTypes := [] } :=
  ⟨by decide, (httpConnect_validation_spec "not a url").2.2 (by decide)⟩

/-- Claim C9: the native transport never arms a timer in any of its
operations (no automatic reconnection); a channel-initiated closure publishes
Disconnected and leaves the port field untouched; `send` is a no-op when no
port is held; on a dead port `send` makes exactly one transmission attempt
and publishes Disconnected without retrying. -/
theorem nativeTransport_no_reconnect :
    (∀ p : Option PortSt,
      NAct.setTimer ∉ nativeSend p ∧
      NAct.setTimer ∉ (nativeOnDisconnect p).2 ∧
      NAct.setTimer ∉ (nativeDisconnect p).2 ∧
      nativeOnDisconnect p = (p, [.publish .disconnected])) ∧
    (∀ ok : Bool, NAct.setTimer ∉ nativeConnect ok) ∧
    nativeSend none = [] ∧
    nativeSend (some .dead) = [.post, .publish .disconnected] ∧
    (nativeSend (some .dead)).count .post = 1 := by
  refine ⟨?_, ?_, by decide, by decide, by decide⟩
  · intro p
    rcases p with _ | p
    · decide
    · cases p <;> decide
  · intro ok
    cases ok <;> decide

/-- Claim C10: a configuration update whose settings object omits any of the
five compared fields makes `needsReconnect` true — the comparison against
`undefined` always differs — so the transport is torn down and reconnected
even when the merged settings are identical to the previous ones. -/
theorem updateSettings_missing_field (s : SettingsS) (p : SettingsPatch)
    (h : p.enabled = none ∨ p.transportType = none ∨ p.wsUrl = none ∨
      p.httpUrl = none ∨ p.nativeHost = none) :
    (updateSettings s p).2 = true := by
  rcases h with h | h | h | h | h <;> simp [updateSettings, needsReconnect, h]

/-- Claim C10, witness: a patch omitting `wsUrl` whose present fields equal
the stored values — the merge is the identity, yet a reconnect is
triggered. -/
theorem updateSettings_missing_field_witness :
    mergeSettings defaultSettings
      { enabled := some true
        transportType := some "websocket"
        wsUrl := none
        httpUrl := some "http://localhost:8080/subtitle"
        nativeHost := some "com.subtitle.streamer" } = defaultSettings ∧
    (updateSettings defaultSettings
      { enabled := some true
        transportType := some "websocket"
        wsUrl := none
        httpUrl := some "http://localhost:8080/subtitle"
        nativeHost := some "com.subtitle.streamer" }).2 = true :=
  ⟨by decide, updateSettings_missing_field defaultSettings _
    (Or.inr (Or.inr (Or.inl rfl)))⟩
